import Mathlib

/-!
Shallow embedding of the SEO dashboard front-end (seo-dashboard-saas).

The repository contains two near-duplicate deployments of the same product.
We embed the client-side logic that the specification's claims are about:

* the API client of `src/unnamed/part_001` (`api.analyzeDomain`,
  `api.researchKeywords`, `api.auditSite`, `api.checkout`) and the API client
  of `src/unnamed/part_002` (per-status error-message construction);
* the tool-panel state machine shared by `DomainTool` / `KeywordTool` /
  `AuditTool` (`submit` guard, button `disabled={loading}`, unguarded
  Enter-key handler, unconditional `setData` on resolution);
* the access gate `handleLogin` of the `Home` component bundled in
  `src/src/app/api/checkout/route.ts`;
* the pricing panels' `handleCheckout` (both the immediate variant in
  `src/src/components/Pricing.tsx` and the confirm-email modal variant in
  `src/unnamed/part_003`) and the bundled Next.js checkout route `POST`.

JavaScript numbers that only ever hold (and are compared as) whole scores or
counts are modelled as `Int`; strings are Lean `String`s; JS truthiness of a
string is emptiness testing; an absent JSON field is `Option.none`.
-/

/-! ### Tool-panel state machine

Each of `DomainTool`, `KeywordTool`, `AuditTool` keeps
`input` (the controlled text field), `loading`, `data`, `error` via
`useState`, and a submit closure of the shape

```
const audit = async () => {
    if (!url) return;
    setLoading(true); setError(''); setData(null);
    try { const res = await api.auditSite(url); setData(res); }
    catch (err) { setError(err.message || 'Audit failed'); }
    finally { setLoading(false); }
};
```

The payload type of `data` is irrelevant to the claims, so it is `Nat`.
-/

structure PanelState where
  input : String
  loading : Bool
  data : Option Nat
  error : String
  deriving DecidableEq, Repr

/-- The synchronous part of the submit closure, up to the first `await`.
Returns the new state and whether a network request was issued:
`if (!input) return;` then `setLoading(true); setError(''); setData(null);`
and the `fetch` begins. -/
def submit (s : PanelState) : PanelState × Bool :=
  if s.input = "" then (s, false)
  else ({ s with loading := true, error := "", data := none }, true)

/-- A click on the trigger button: the button carries `disabled={loading}`,
so the `onClick` handler does not run while `loading` is true. -/
def click (s : PanelState) : PanelState × Bool :=
  if s.loading then (s, false) else submit s

/-- The Enter key in the text field:
`onKeyDown={(e) => e.key === 'Enter' && audit()}` — the handler is not
guarded by `loading` and the input is never disabled. -/
def enterKey (s : PanelState) : PanelState × Bool :=
  submit s

/-- A request resolving successfully with payload `v`:
`setData(res)` then (finally) `setLoading(false)`. The panel keeps no
request identifier, so the update is unconditional. -/
def resolveOk (s : PanelState) (v : Nat) : PanelState :=
  { s with data := some v, loading := false }

/-- `setError(err.message || fallback)` as run by the catch/finally blocks:
the thrown message if non-empty, else the panel's generic fallback. -/
def displayedError (thrown fallback : String) : String :=
  if thrown = "" then fallback else thrown

/-! ### API client error messages

`src/unnamed/part_001` (client variant A):

```
async analyzeDomain(apiKey, domain) { ...
    if (!res.ok) {
        if (res.status === 401) throw new Error('Invalid API Key');
        if (res.status === 429) throw new Error('Quota Exceeded');
        throw new Error('Analysis failed');
    } ... }
async researchKeywords(apiKey, keyword) { ...
    if (!res.ok) throw new Error('Research failed'); ... }
async auditSite(apiKey, url) { ...
    if (!res.ok) throw new Error('Audit failed'); ... }
```

`src/unnamed/part_002` (client variant B) instead throws
`new Error(error.detail || '<generic>')` for every non-ok status, where
`error` is the decoded response body.

The functions below give the message of the `Error` thrown for a non-ok
HTTP status; the panel then displays it through `displayedError`.
-/

/-- Message thrown by variant A `api.analyzeDomain` for a non-ok status. -/
def analyzeDomainErrMsgA (status : Nat) : String :=
  if status = 401 then "Invalid API Key"
  else if status = 429 then "Quota Exceeded"
  else "Analysis failed"

/-- Message thrown by variant A `api.researchKeywords` for a non-ok status:
no status is inspected. -/
def researchKeywordsErrMsgA (_status : Nat) : String :=
  "Research failed"

/-- Message thrown by variant A `api.auditSite` for a non-ok status:
no status is inspected. -/
def auditSiteErrMsgA (_status : Nat) : String :=
  "Audit failed"

/-- Variant B error message: `error.detail || fallback`, where `detail` is
the (possibly absent) `detail` field of the decoded error body. -/
def errMsgB (detail : Option String) (fallback : String) : String :=
  match detail with
  | some d => if d = "" then fallback else d
  | none => fallback

/-! ### Access gate (`Home` in `src/src/app/api/checkout/route.ts`)

```
const handleLogin = (e) => {
    e.preventDefault();
    if (apiKey.trim()) {
        localStorage.setItem('seo_api_key', apiKey);
        setIsAuthenticated(true);
    }
};
```
-/

structure GateState where
  apiKey : String
  isAuthenticated : Bool
  storedKey : Option String
  deriving DecidableEq, Repr

/-- The whitespace characters stripped by JavaScript `String.prototype.trim`
(the ASCII ones; the credential strings involved contain no exotic Unicode
space separators). -/
def isJsWhitespace (c : Char) : Bool :=
  c = ' ' || c = '\t' || c = '\n' || c = '\r' || c = '\x0b' || c = '\x0c'

/-- JavaScript `s.trim()`: leading and trailing whitespace removed. -/
def jsTrim (s : String) : String :=
  ⟨((s.data.dropWhile isJsWhitespace).reverse.dropWhile isJsWhitespace).reverse⟩

/-- The login form submit handler. The second component records whether a
network request is issued: the handler only touches local storage and local
state, so it is always `false`. -/
def handleLogin (s : GateState) : GateState × Bool :=
  if jsTrim s.apiKey ≠ "" then
    ({ s with storedKey := some s.apiKey, isAuthenticated := true }, false)
  else
    (s, false)

/-! ### Domain score rendering (`frontend/src/components/DomainTool.tsx`)

```
<div className={... data.seo_score >= 70 ? 'text-green'
                  : data.seo_score >= 40 ? 'text-yellow' : 'text-red'}>
    {data.seo_score}
</div>
```
-/

inductive Tier where
  | good
  | warn
  | bad
  deriving DecidableEq, Repr

/-- Colour tier of the rendered SEO score. -/
def scoreTier (s : Int) : Tier :=
  if s ≥ 70 then Tier.good
  else if s ≥ 40 then Tier.warn
  else Tier.bad

structure DomainAnalysis where
  domain : String
  seo_score : Int
  status_code : Int
  load_time_seconds : Int
  has_ssl : Bool
  title : String
  title_length : Int
  meta_description : String
  h1_count : Int
  has_canonical : Bool
  has_open_graph : Bool
  has_schema_markup : Bool
  word_count : Int
  issues : List String
  recommendations : List String
  deriving DecidableEq, Repr

/-- The number rendered in the score badge is the response's `seo_score`. -/
def displayedScore (d : DomainAnalysis) : Int :=
  d.seo_score

/-! ### Keyword research alias (`src/unnamed/part_001`)

```
async researchKeywords(apiKey, keyword) { ...
    const data = await res.json();
    return { ...data, difficulty: data.keyword_difficulty };
}
```
-/

structure RelatedKeyword where
  keyword : String
  volume : Int
  difficulty : Int
  cpc : Int
  deriving DecidableEq, Repr

structure KeywordData where
  keyword : String
  country : String
  monthly_volume : Int
  keyword_difficulty : Int
  difficulty : Int
  cpc_usd : Int
  competition : String
  trend : String
  serp_features : List String
  opportunity_score : Int
  related_keywords : List RelatedKeyword
  analyzed_at : String
  deriving DecidableEq, Repr

/-- The object returned by `researchKeywords` on success:
spread of the decoded body, with `difficulty` overridden by
`keyword_difficulty`. -/
def researchKeywordsResult (data : KeywordData) : KeywordData :=
  { data with difficulty := data.keyword_difficulty }

/-! ### Checkout (`Pricing` components and the bundled Next.js route)

`src/src/components/Pricing.tsx`:

```
const handleCheckout = async (planId) => {
    setLoading(planId);
    try {
        const result = await api.checkout(planId, 'user@example.com');
        if (result.checkout_url) { window.location.href = result.checkout_url; }
    } catch (err) { console.error('Checkout failed:', err); }
    finally { setLoading(null); }
};
```

The bundled route (`src/src/app/api/checkout/route.ts`) answers success with
`NextResponse.json({ sessionId: session.id, url: session.url })` — it has no
`checkout_url` field.
-/

structure CheckoutResponse where
  checkout_url : Option String
  sessionId : Option String
  url : Option String
  deriving DecidableEq, Repr

/-- JS truthiness of a possibly-absent string field. -/
def truthy : Option String → Bool
  | some s => s ≠ ""
  | none => false

structure CheckoutOutcome where
  navigation : Option String
  loading : Option String
  errorLogged : Bool
  deriving DecidableEq, Repr

/-- Outcome of `handleCheckout` when the request succeeds: navigate only if
`result.checkout_url` is truthy, never log an error, reset `loading`. -/
def handleCheckoutSuccess (r : CheckoutResponse) : CheckoutOutcome :=
  { navigation := if truthy r.checkout_url then r.checkout_url else none
  , loading := none
  , errorLogged := false }

/-- Success body of the bundled checkout route `POST`:
`{ sessionId: session.id, url: session.url }`. -/
def checkoutRouteResponse (id : String) (u : Option String) : CheckoutResponse :=
  { checkout_url := none, sessionId := some id, url := u }

/-! ### Confirm-email checkout modal (`src/unnamed/part_003`)

```
const handleCheckout = async () => {
    if (!email || !email.includes('@')) { alert('Please enter a valid email'); return; }
    setLoading(true);
    try { const res = await api.checkout(selectedPlan.toLowerCase(), email); ... }
    ...
};
```
-/

structure ModalState where
  selectedPlan : String
  isModalOpen : Bool
  email : String
  loading : Bool
  deriving DecidableEq, Repr

inductive ModalAction where
  | alertInvalidEmail
  | callCheckout (plan : String) (email : String)
  deriving DecidableEq, Repr

/-- Whether the action is the checkout network call. -/
def ModalAction.isCheckout : ModalAction → Bool
  | callCheckout _ _ => true
  | _ => false

/-- JavaScript `s.includes(c)` for a single character `c`. -/
def jsIncludesChar (s : String) (c : Char) : Bool :=
  s.data.any (fun a => a == c)

/-- The synchronous prefix of the modal `handleCheckout`, up to the request:
the guard `!email || !email.includes('@')` alerts and returns without any
state change; otherwise `setLoading(true)` and the checkout call is issued
with `selectedPlan.toLowerCase()` and the email. -/
def handleCheckoutModal (s : ModalState) : ModalState × ModalAction :=
  if s.email = "" || !(jsIncludesChar s.email '@') then
    (s, ModalAction.alertInvalidEmail)
  else
    ({ s with loading := true },
     ModalAction.callCheckout s.selectedPlan.toLower s.email)

/-! ## Theorems -/

/-- C2 (counterexample): with a request already in flight
(`loading = true`) and a non-empty input, the Enter key still starts a
second request — `Submitting` does not disable this trigger. -/
theorem enter_key_fires_while_loading :
    (enterKey { input := "example.com", loading := true, data := none, error := "" }).2 = true := by
  decide

/-- C2 (amended): while `loading = true` the button click never starts a
request (the button is disabled), but the Enter key is unguarded: it starts
a request exactly when the input is non-empty. -/
theorem loading_blocks_click_but_not_enter (s : PanelState) (h : s.loading = true) :
    (click s).2 = false ∧ ((enterKey s).2 = true ↔ s.input ≠ "") := by
  constructor
  · simp [click, h]
  · by_cases hi : s.input = "" <;> simp [enterKey, submit, hi]

/-- C2 (witness for the amended theorem at a concrete loading state). -/
theorem loading_blocks_click_but_not_enter_witness :
    (click { input := "example.com", loading := true, data := none, error := "" }).2 = false ∧
    ((enterKey { input := "example.com", loading := true, data := none, error := "" }).2 = true
      ↔ ("example.com" : String) ≠ "") :=
  loading_blocks_click_but_not_enter
    { input := "example.com", loading := true, data := none, error := "" } rfl

/-- C1 (counterexample): an HTTP 401 on the keyword-research operation of
client variant A is thrown — and therefore displayed by the panel — as the
generic fallback "Research failed", not as the credential-invalid message. -/
theorem research_401_displays_generic :
    researchKeywordsErrMsgA 401 = "Research failed" ∧
    displayedError (researchKeywordsErrMsgA 401) "Research failed" = "Research failed" ∧
    researchKeywordsErrMsgA 401 ≠ "Invalid API Key" := by
  decide

/-- C1 (amended): only `analyzeDomain` of client variant A maps HTTP 401 to
the credential-invalid message "Invalid API Key"; `researchKeywords` and
`auditSite` surface their generic per-operation fallbacks on a 401, and
client variant B surfaces the server `detail` field or the generic fallback
regardless of the status. -/
theorem api_401_error_messages :
    displayedError (analyzeDomainErrMsgA 401) "Analysis failed" = "Invalid API Key" ∧
    displayedError (researchKeywordsErrMsgA 401) "Research failed" = "Research failed" ∧
    displayedError (auditSiteErrMsgA 401) "Audit failed" = "Audit failed" ∧
    errMsgB none "Analysis failed" = "Analysis failed" ∧
    errMsgB (some "Invalid API key") "Analysis failed" = "Invalid API key" := by
  decide

/-- C3 (code_bug evaluation): two submissions race. From an idle panel with
input "example.com", a click starts request 1; while loading, the Enter key
starts request 2; request 2 resolves first with payload 20; request 1
resolves last with payload 10. The final displayed data is the stale first
response 10, not the most recent request's 20. -/
theorem stale_response_overwrites_newer :
    (resolveOk
      (resolveOk
        (enterKey (click { input := "example.com", loading := false, data := none, error := "" }).1).1
        20)
      10).data = some 10 ∧
    (resolveOk
      (resolveOk
        (enterKey (click { input := "example.com", loading := false, data := none, error := "" }).1).1
        20)
      10).data ≠ some 20 := by
  decide

/-- C4: with an empty input, both triggers are complete no-ops: no request
is issued and every component of the panel state is unchanged. -/
theorem empty_input_submit_noop (s : PanelState) (h : s.input = "") :
    click s = (s, false) ∧ enterKey s = (s, false) := by
  constructor
  · by_cases hl : s.loading <;> simp [click, submit, hl, h]
  · simp [enterKey, submit, h]

/-- C4 (witness at the concrete idle state with empty input). -/
theorem empty_input_submit_noop_witness :
    click { input := "", loading := false, data := none, error := "" }
      = ({ input := "", loading := false, data := none, error := "" }, false) ∧
    enterKey { input := "", loading := false, data := none, error := "" }
      = ({ input := "", loading := false, data := none, error := "" }, false) :=
  empty_input_submit_noop { input := "", loading := false, data := none, error := "" } rfl

/-- C5 (counterexample): the credential " " (a single space) is a non-empty
string, yet submitting the login form neither authenticates the session nor
stores anything: the guard is `apiKey.trim()`, not non-emptiness. -/
theorem whitespace_credential_rejected :
    (" " : String) ≠ "" ∧
    (handleLogin { apiKey := " ", isAuthenticated := false, storedKey := none }).1.isAuthenticated = false ∧
    (handleLogin { apiKey := " ", isAuthenticated := false, storedKey := none }).1.storedKey = none := by
  decide

/-- C5 (amended): submitting the login form authenticates the session and
stores the credential `k` (untrimmed) if and only if `jsTrim k` is non-empty,
i.e. `k` contains a non-whitespace character; the handler never issues a
network request, so no server-side verification happens at login time. -/
theorem login_authenticates_iff_trim_nonempty (k : String) :
    ((handleLogin { apiKey := k, isAuthenticated := false, storedKey := none }).1.isAuthenticated = true ∧
     (handleLogin { apiKey := k, isAuthenticated := false, storedKey := none }).1.storedKey = some k
      ↔ jsTrim k ≠ "") ∧
    (handleLogin { apiKey := k, isAuthenticated := false, storedKey := none }).2 = false := by
  by_cases h : jsTrim k = "" <;> simp [handleLogin, h]

/-- C6: the domain panel renders exactly the response's `seo_score`, and the
colour tier is `good` iff the score is at least 70, `warn` iff it lies in
[40, 70), and `bad` iff it is below 40; in particular a score of 85 is in
the `good` tier. -/
theorem domain_score_display_and_tiers :
    (∀ d : DomainAnalysis, displayedScore d = d.seo_score) ∧
    (∀ s : Int,
      (scoreTier s = Tier.good ↔ 70 ≤ s) ∧
      (scoreTier s = Tier.warn ↔ 40 ≤ s ∧ s < 70) ∧
      (scoreTier s = Tier.bad ↔ s < 40)) ∧
    scoreTier 85 = Tier.good := by
  refine ⟨fun d => rfl, fun s => ?_, by decide⟩
  unfold scoreTier
  by_cases h70 : (70 : Int) ≤ s <;> by_cases h40 : (40 : Int) ≤ s <;>
    simp [h70, h40] <;> omega

/-- C7: the object `researchKeywords` returns on success has `difficulty`
equal to the backend field `keyword_difficulty`, and every other field of
the decoded response — including `keyword_difficulty` itself — is preserved
unchanged. -/
theorem research_keywords_alias_fidelity (data : KeywordData) :
    (researchKeywordsResult data).difficulty = data.keyword_difficulty ∧
    (researchKeywordsResult data).keyword = data.keyword ∧
    (researchKeywordsResult data).country = data.country ∧
    (researchKeywordsResult data).monthly_volume = data.monthly_volume ∧
    (researchKeywordsResult data).keyword_difficulty = data.keyword_difficulty ∧
    (researchKeywordsResult data).cpc_usd = data.cpc_usd ∧
    (researchKeywordsResult data).competition = data.competition ∧
    (researchKeywordsResult data).trend = data.trend ∧
    (researchKeywordsResult data).serp_features = data.serp_features ∧
    (researchKeywordsResult data).opportunity_score = data.opportunity_score ∧
    (researchKeywordsResult data).related_keywords = data.related_keywords ∧
    (researchKeywordsResult data).analyzed_at = data.analyzed_at := by
  refine ⟨rfl, rfl, rfl, rfl, rfl, rfl, rfl, rfl, rfl, rfl, rfl, rfl⟩

/-- C8 (counterexample): a successful response whose body contains
`checkout_url` equal to the empty string sets no navigation target at all
(the guard `if (result.checkout_url)` is a truthiness test), so the
navigation target does not equal the server-returned value. -/
theorem empty_checkout_url_no_navigation :
    (handleCheckoutSuccess { checkout_url := some "", sessionId := none, url := none }).navigation
      ≠ some "" ∧
    (handleCheckoutSuccess { checkout_url := some "", sessionId := none, url := none }).navigation
      = none := by
  decide

/-- C8 (amended): for every successful checkout response whose decoded body
contains a non-empty `checkout_url` field `u`, the browser navigation target
is exactly `u`; an empty or absent `checkout_url` causes no navigation. -/
theorem checkout_navigates_to_literal_url (u : String) (h : u ≠ "")
    (sid uu : Option String) :
    (handleCheckoutSuccess { checkout_url := some u, sessionId := sid, url := uu }).navigation
      = some u := by
  simp [handleCheckoutSuccess, truthy, h]

/-- C8 (witness at the spec's example URL). -/
theorem checkout_navigates_to_literal_url_witness :
    (handleCheckoutSuccess
      { checkout_url := some "https://pay.example/sess_123", sessionId := none, url := none }).navigation
      = some "https://pay.example/sess_123" :=
  checkout_navigates_to_literal_url "https://pay.example/sess_123" (by decide) none none

/-- C9: in the confirm-email modal variant, the checkout call is issued if
and only if the entered email contains an at sign; when it does not, the
action is the validation alert and the panel state is unchanged. -/
theorem modal_checkout_iff_email_has_at (s : ModalState) :
    ((handleCheckoutModal s).2.isCheckout = jsIncludesChar s.email '@') ∧
    (jsIncludesChar s.email '@' = false →
      (handleCheckoutModal s).1 = s ∧
      (handleCheckoutModal s).2 = ModalAction.alertInvalidEmail) := by
  constructor
  · by_cases he : s.email = ""
    · simp [handleCheckoutModal, he, jsIncludesChar, ModalAction.isCheckout]
    · by_cases hc : jsIncludesChar s.email '@' <;>
        simp [handleCheckoutModal, he, hc, ModalAction.isCheckout]
  · intro hc
    have he' : (s.email = "" || !(jsIncludesChar s.email '@')) = true := by
      simp [hc]
    simp [handleCheckoutModal, he']

/-- C9 (witness at a concrete modal state with an at-sign-free email). -/
theorem modal_checkout_iff_email_has_at_witness :
    ((handleCheckoutModal
        { selectedPlan := "Starter", isModalOpen := true, email := "no-at-sign", loading := false }).2.isCheckout
      = jsIncludesChar "no-at-sign" '@') ∧
    (jsIncludesChar "no-at-sign" '@' = false →
      (handleCheckoutModal
          { selectedPlan := "Starter", isModalOpen := true, email := "no-at-sign", loading := false }).1
        = { selectedPlan := "Starter", isModalOpen := true, email := "no-at-sign", loading := false } ∧
      (handleCheckoutModal
          { selectedPlan := "Starter", isModalOpen := true, email := "no-at-sign", loading := false }).2
        = ModalAction.alertInvalidEmail) :=
  modal_checkout_iff_email_has_at
    { selectedPlan := "Starter", isModalOpen := true, email := "no-at-sign", loading := false }

/-- C10: when the checkout request succeeds but the decoded body has no
truthy `checkout_url` — as with the bundled Next.js route, whose success
body carries only `sessionId` and `url` — `handleCheckout` sets no
navigation target, logs no error, and resets the loading indicator. -/
theorem falsy_checkout_url_completes_silently (id : String) (u : Option String)
    (r : CheckoutResponse) (h : truthy r.checkout_url = false) :
    truthy (checkoutRouteResponse id u).checkout_url = false ∧
    (handleCheckoutSuccess r).navigation = none ∧
    (handleCheckoutSuccess r).loading = none ∧
    (handleCheckoutSuccess r).errorLogged = false := by
  refine ⟨rfl, ?_, rfl, rfl⟩
  simp [handleCheckoutSuccess, h]

/-- C10 (witness: the bundled route's own success body). -/
theorem falsy_checkout_url_completes_silently_witness :
    truthy (checkoutRouteResponse "cs_test_123" (some "https://checkout.stripe.com/c/pay")).checkout_url
      = false ∧
    (handleCheckoutSuccess
        (checkoutRouteResponse "cs_test_123" (some "https://checkout.stripe.com/c/pay"))).navigation
      = none ∧
    (handleCheckoutSuccess
        (checkoutRouteResponse "cs_test_123" (some "https://checkout.stripe.com/c/pay"))).loading
      = none ∧
    (handleCheckoutSuccess
        (checkoutRouteResponse "cs_test_123" (some "https://checkout.stripe.com/c/pay"))).errorLogged
      = false :=
  falsy_checkout_url_completes_silently "cs_test_123" (some "https://checkout.stripe.com/c/pay")
    (checkoutRouteResponse "cs_test_123" (some "https://checkout.stripe.com/c/pay")) rfl
